import Mathlib

/-!
# Verification of the AppFactory build registry and build validator

This file gives a shallow embedding, in Lean 4, of the two Python modules
`appfactory/build_registry.py` and `appfactory/build_validator.py`, and proves
properties of the embedded definitions.

Modelling conventions:
* Python strings are Lean `String`s (sequences of code points); Python string
  slicing, `str.strip`, truthiness and the `or` operator are modelled by
  explicit helper functions (`pySliceTo`, `pyStrip`, `pyTruthy`, `pyOrOpt`).
  Character classes (`\s`, `.lower()`, `.strip()`) are modelled over their
  ASCII range, which is the range exercised by the repository.
* JSON values are the inductive type `J`; Python `dict.get(k, default)` is
  `pyGet`, which signals an `AttributeError` (as `none`) when the receiver is
  not a dict, mirroring the exception paths of the source.
* `hashlib.sha256(...).hexdigest()` is embedded as a full executable SHA-256
  over the UTF-8 bytes of the input (`sha256HexChars`).
* File-system and subprocess effects are passed in explicitly: an `Env`
  record supplies the observable outcomes of `Path.exists`, `open`/`json.load`,
  `subprocess.run`, `json.loads` and `os.chdir`, and the embedded functions
  are pure functions of that environment, faithful to the control flow
  (including `try`/`except`/`finally`) of the source.
-/

/-! ## Python-semantics helpers -/

/-- Truthiness of a Python `Optional[str]`: `None` and `""` are falsy. -/
def pyTruthy : Option String → Bool
  | none => false
  | some s => s != ""

/-- Python `a or b` on `Optional[str]` values: `a` if truthy, else `b`. -/
def pyOrOpt (a b : Option String) : Option String :=
  if pyTruthy a then a else b

/-- The ASCII whitespace characters matched by Python `\s` and stripped by
`str.strip()` (space, tab, newline, carriage return, vertical tab, form feed). -/
def pyIsSpace (c : Char) : Bool :=
  c = ' ' || c = '\t' || c = '\n' || c = '\r' || c = '\x0b' || c = '\x0c'

/-- Python `str.strip()`: remove leading and trailing whitespace. -/
def pyStrip (s : String) : String :=
  String.mk (((s.data.dropWhile pyIsSpace).reverse.dropWhile pyIsSpace).reverse)

/-- Python `s.startswith(pre)`: code-point prefix test (structural, so it
evaluates by kernel reduction). -/
def pyStartswith (s pre : String) : Bool := pre.data.isPrefixOf s.data

/-- Python slicing `s[:n]` on a list of code points, for a possibly negative
`n`: a negative bound counts from the end, clamped at zero. -/
def pySliceTo (l : List Char) (n : Int) : List Char :=
  if 0 ≤ n then l.take n.toNat else l.take ((l.length : Int) + n).toNat

/-! ## `generate_bundle_identifier` (build_validator.py, lines 230-259) -/

/-- A separator character for the regex `[_\-\s]+`. -/
def isSepChar (c : Char) : Bool :=
  c = '_' || c = '-' || pyIsSpace c

/-- `re.sub(r'[_\-\s]+', '.', s)`: replace each maximal run of separator
characters with a single dot.  The flag records whether the previous
character was part of a separator run. -/
def collapseSepsAux : Bool → List Char → List Char
  | _, [] => []
  | prev, c :: rest =>
    if isSepChar c then
      if prev then collapseSepsAux true rest
      else '.' :: collapseSepsAux true rest
    else c :: collapseSepsAux false rest

/-- The character class `[a-z0-9.]` kept by `re.sub(r'[^a-z0-9.]', '', s)`. -/
def keepChar (c : Char) : Bool :=
  ('a' ≤ c && c ≤ 'z') || ('0' ≤ c && c ≤ '9') || c = '.'

/-- `re.sub(r'\.+', '.', s)`: collapse runs of dots to a single dot. -/
def collapseDotsAux : Bool → List Char → List Char
  | _, [] => []
  | prev, c :: rest =>
    if c = '.' then
      if prev then collapseDotsAux true rest
      else '.' :: collapseDotsAux true rest
    else c :: collapseDotsAux false rest

/-- Python `str.strip('.')`: remove leading and trailing dots. -/
def stripDots (l : List Char) : List Char :=
  ((l.dropWhile (· = '.')).reverse.dropWhile (· = '.')).reverse

/-- The normalised slug computed by the body of `generate_bundle_identifier`:
lowercase, collapse separator runs to dots, drop characters outside
`[a-z0-9.]`, collapse dot runs, strip outer dots. -/
def clean_slug_of (slug : String) : List Char :=
  stripDots (collapseDotsAux false
    (List.filter keepChar (collapseSepsAux false (slug.data.map Char.toLower))))

/-- `generate_bundle_identifier(slug, max_length=50)` from
`build_validator.py`: build `com.appfactory.<clean_slug>` (or
`com.appfactory.app` when the cleaned slug is empty) and, if the result is
longer than `max_length`, truncate the slug portion with the Python slice
`clean_slug[:max_length - len(base) - 1]` (whose bound may be negative). -/
def generate_bundle_identifier (slug : String) (max_length : Nat := 50) : String :=
  let clean_slug := clean_slug_of slug
  let base := "com.appfactory"
  let bundle_id :=
    if clean_slug ≠ [] then base ++ "." ++ String.mk clean_slug
    else base ++ "." ++ "app"
  if bundle_id.length > max_length then
    let available_length : Int := (max_length : Int) - (base.length : Int) - 1
    let truncated_slug := pySliceTo clean_slug available_length
    base ++ "." ++ String.mk truncated_slug
  else bundle_id

/-! ## SHA-256 (embedding of `hashlib.sha256(...).hexdigest()`)

`build_registry.generate_build_id` hashes the UTF-8 encoding of its input with
SHA-256 and keeps the first 16 hex characters.  The hash itself lives in the
Python standard library; it is embedded here as an executable SHA-256
(FIPS 180-4) over `Nat`, with all word arithmetic taken modulo `2^32`. -/

/-- Reduce modulo `2^32`. -/
def m32 (n : Nat) : Nat := n % 4294967296

/-- Right rotation of a 32-bit word by `n` places. -/
def rotr32 (n x : Nat) : Nat := m32 ((x >>> n) ||| (x <<< (32 - n)))

/-- SHA-256 `Σ₀`. -/
def bsig0 (x : Nat) : Nat := rotr32 2 x ^^^ rotr32 13 x ^^^ rotr32 22 x

/-- SHA-256 `Σ₁`. -/
def bsig1 (x : Nat) : Nat := rotr32 6 x ^^^ rotr32 11 x ^^^ rotr32 25 x

/-- SHA-256 `σ₀`. -/
def ssig0 (x : Nat) : Nat := rotr32 7 x ^^^ rotr32 18 x ^^^ (x >>> 3)

/-- SHA-256 `σ₁`. -/
def ssig1 (x : Nat) : Nat := rotr32 17 x ^^^ rotr32 19 x ^^^ (x >>> 10)

/-- SHA-256 `Ch(x,y,z)`; `¬x` is complement within 32 bits. -/
def chFn (x y z : Nat) : Nat := (x &&& y) ^^^ ((x ^^^ 4294967295) &&& z)

/-- SHA-256 `Maj(x,y,z)`. -/
def majFn (x y z : Nat) : Nat := (x &&& y) ^^^ (x &&& z) ^^^ (y &&& z)

/-- The 64 SHA-256 round constants. -/
def sha256K : List Nat := [
  1116352408, 1899447441, 3049323471, 3921009573, 961987163, 1508970993, 2453635748, 2870763221,
  3624381080, 310598401, 607225278, 1426881987, 1925078388, 2162078206, 2614888103, 3248222580,
  3835390401, 4022224774, 264347078, 604807628, 770255983, 1249150122, 1555081692, 1996064986,
  2554220882, 2821834349, 2952996808, 3210313671, 3336571891, 3584528711, 113926993, 338241895,
  666307205, 773529912, 1294757372, 1396182291, 1695183700, 1986661051, 2177026350, 2456956037,
  2730485921, 2820302411, 3259730800, 3345764771, 3516065817, 3600352804, 4094571909, 275423344,
  430227734, 506948616, 659060556, 883997877, 958139571, 1322822218, 1537002063, 1747873779,
  1955562222, 2024104815, 2227730452, 2361852424, 2428436474, 2756734187, 3204031479, 3329325298]

/-- The initial SHA-256 hash state `H⁽⁰⁾`. -/
def sha256H0 : List Nat :=
  [1779033703, 3144134277, 1013904242, 2773480762,
   1359893119, 2600822924, 528734635, 1541459225]

/-- UTF-8 encoding of one code point (Python `str.encode()`). -/
def utf8EncodeChar (c : Char) : List Nat :=
  let n := c.toNat
  if n < 128 then [n]
  else if n < 2048 then [192 ||| (n >>> 6), 128 ||| (n &&& 63)]
  else if n < 65536 then
    [224 ||| (n >>> 12), 128 ||| ((n >>> 6) &&& 63), 128 ||| (n &&& 63)]
  else
    [240 ||| (n >>> 18), 128 ||| ((n >>> 12) &&& 63),
     128 ||| ((n >>> 6) &&& 63), 128 ||| (n &&& 63)]

/-- UTF-8 bytes of a string. -/
def utf8Bytes (s : String) : List Nat :=
  (s.data.map utf8EncodeChar).flatten

/-- SHA-256 message padding: append `0x80`, zeros to 56 mod 64, and the
64-bit big-endian bit length. -/
def sha256Pad (msg : List Nat) : List Nat :=
  let len := msg.length
  let k := (64 - ((len + 9) % 64)) % 64
  let bitLen := len * 8
  msg ++ [128] ++ List.replicate k 0 ++
    (List.range 8).map (fun i => (bitLen >>> (8 * (7 - i))) % 256)

/-- The 16 big-endian 32-bit words of one 64-byte block. -/
def wordsOfBlock (block : List Nat) : List Nat :=
  (List.range 16).map (fun i =>
    (block.getD (4 * i) 0) <<< 24 ||| (block.getD (4 * i + 1) 0) <<< 16 |||
    (block.getD (4 * i + 2) 0) <<< 8 ||| block.getD (4 * i + 3) 0)

/-- Extend 16 message words to the 64-word message schedule. -/
def msgSchedule (w16 : List Nat) : List Nat :=
  (List.range 48).foldl
    (fun w t =>
      w ++ [m32 (ssig1 (w.getD (t + 14) 0) + w.getD (t + 9) 0 +
                 ssig0 (w.getD (t + 1) 0) + w.getD t 0)])
    w16

/-- One round of the SHA-256 compression function on the 8-word state. -/
def sha256Round (w : List Nat) (st : List Nat) (t : Nat) : List Nat :=
  match st with
  | [a, b, c, d, e, f, g, h] =>
    let t1 := m32 (h + bsig1 e + chFn e f g + sha256K.getD t 0 + w.getD t 0)
    let t2 := m32 (bsig0 a + majFn a b c)
    [m32 (t1 + t2), a, b, c, m32 (d + t1), e, f, g]
  | st => st

/-- Compress one 64-byte block into the hash state. -/
def compressBlock (h : List Nat) (block : List Nat) : List Nat :=
  let w := msgSchedule (wordsOfBlock block)
  let st := (List.range 64).foldl (sha256Round w) h
  (List.zip h st).map (fun p => m32 (p.1 + p.2))

/-- The eight 32-bit words of the SHA-256 digest of a string's UTF-8 bytes. -/
def sha256Words (s : String) : List Nat :=
  let padded := sha256Pad (utf8Bytes s)
  (List.range (padded.length / 64)).foldl
    (fun h i => compressBlock h ((padded.drop (64 * i)).take 64)) sha256H0

/-- Lowercase hex digit for `n < 16`. -/
def hexDigit (n : Nat) : Char :=
  if n < 10 then Char.ofNat (48 + n) else Char.ofNat (87 + n)

/-- The 8 hex characters of one 32-bit word, most significant first. -/
def wordHex (w : Nat) : List Char :=
  (List.range 8).map (fun i => hexDigit ((w >>> (4 * (7 - i))) % 16))

/-- `hashlib.sha256(s.encode()).hexdigest()` as a list of 64 hex characters. -/
def sha256HexChars (s : String) : List Char :=
  ((sha256Words s).map wordHex).flatten

/-! ## `generate_build_id` (build_registry.py, lines 67-73) -/

/-- The `hash_input` string of `generate_build_id`: `build_path`, with
`additional_data` appended when it is truthy (`if additional_data:`). -/
def hash_input (build_path : String) (additional_data : Option String) : String :=
  build_path ++ (if pyTruthy additional_data then additional_data.getD "" else "")

/-- `generate_build_id(build_path, additional_data=None)`: the first 16 hex
characters of the SHA-256 digest of `hash_input`. -/
def generate_build_id (build_path : String) (additional_data : Option String := none) : String :=
  String.mk ((sha256HexChars (hash_input build_path additional_data)).take 16)

/-! ## Registry data model (build_registry.py)

A build record as constructed by `register_build` (lines 122-150) and
inspected by `validate_build_registry` (lines 240-257).  JSON optionality is
modelled with `Option`: a `none` field stands for an absent key (or a `null` /
falsy value where the source only tests truthiness via `.get`). -/

structure LaunchInfo where
  type : String
  recommended : String
  notes : String
deriving DecidableEq

structure PreviewInfo where
  enabled : Bool
  instructions : List String
deriving DecidableEq

structure Origin where
  mode : Option String := none
  runId : Option String := none
  ideaSlug : Option String := none
  dreamPromptHash : Option String := none
deriving DecidableEq

structure BuildRec where
  buildId : Option String := none
  name : Option String := none
  slug : Option String := none
  origin : Option Origin := none
  framework : Option String := none
  buildPath : Option String := none
  status : Option String := none
  createdAt : Option String := none
  launch : Option LaunchInfo := none
  preview : Option PreviewInfo := none
deriving DecidableEq

/-- The registry document `{updatedAt, builds}` (`build_index.json`). -/
structure RegistryDoc where
  updatedAt : Option String := none
  builds : Option (List BuildRec) := none
deriving DecidableEq

/-- Arguments passed to `json.dump` for the registry file. -/
structure DumpArgs where
  indent : Nat
  sortKeys : Bool
deriving DecidableEq

/-- On-disk state of `builds/build_index.json`.  `content = none`: the file
does not exist; `some none`: present but unreadable or malformed JSON;
`some (some d)`: present and parses to `d`.  `lastDumpArgs` records the
serialization options of the most recent write. -/
structure RegistryFile where
  content : Option (Option RegistryDoc) := none
  lastDumpArgs : Option DumpArgs := none
deriving DecidableEq

/-- `load_build_registry()` (lines 20-45): if the file is absent, create an
empty registry stamped with the current time and write it (`indent=2`, no
`sort_keys`); on a parse or I/O failure, warn and return an empty in-memory
registry without touching the file; otherwise return the parsed document. -/
def load_build_registry (file : RegistryFile) (now : String) : RegistryDoc × RegistryFile :=
  match file.content with
  | none =>
    let empty_registry : RegistryDoc := { updatedAt := some now, builds := some [] }
    (empty_registry,
     { content := some (some empty_registry),
       lastDumpArgs := some { indent := 2, sortKeys := false } })
  | some none => ({ updatedAt := some now, builds := some [] }, file)
  | some (some d) => (d, file)

/-- `save_build_registry(registry)` (lines 47-65): stamp `updatedAt` with the
current time and write the document (`indent=2`, `sort_keys=True`); on an
I/O error (`writeOk = false`) return `false` without raising and leave the
file unchanged (the in-memory document is still stamped, since the mutation
precedes the write). -/
def save_build_registry (registry : RegistryDoc) (file : RegistryFile)
    (now : String) (writeOk : Bool) : Bool × RegistryDoc × RegistryFile :=
  let stamped : RegistryDoc := { registry with updatedAt := some now }
  if writeOk then
    (true, stamped,
     { content := some (some stamped),
       lastDumpArgs := some { indent := 2, sortKeys := true } })
  else (false, stamped, file)

/-- The `build_entry` dict constructed by `register_build` (lines 122-150). -/
def build_entry_of (build_id name slug mode build_path status : String)
    (run_id idea_slug dream_prompt_hash : Option String)
    (framework launch_command notes now : String) : BuildRec :=
  { buildId := some build_id,
    name := some name,
    slug := some slug,
    origin := some { mode := some mode, runId := run_id, ideaSlug := idea_slug,
                     dreamPromptHash := dream_prompt_hash },
    framework := some framework,
    buildPath := some build_path,
    status := some status,
    createdAt := some now,
    launch := some { type := "expo", recommended := launch_command, notes := notes },
    preview := some { enabled := status == "success",
                      instructions := ["cd " ++ build_path, "npm install",
                                       "npx expo install --check", launch_command] } }

/-- The registry-update core of `register_build` (lines 108-158): compute the
build id from `build_path` and `dream_prompt_hash or run_id`, scan the builds
list for the first record with that `buildId` (the `for ... break` loop,
lines 116-119; the source indexes `build["buildId"]` directly, which assumes
the key is present), and replace it in place, else append the new entry. -/
def register_build_core (builds : List BuildRec)
    (name slug mode build_path status : String)
    (run_id idea_slug dream_prompt_hash : Option String)
    (framework launch_command notes now : String) : List BuildRec :=
  let build_id := generate_build_id build_path (pyOrOpt dream_prompt_hash run_id)
  let build_entry := build_entry_of build_id name slug mode build_path status
    run_id idea_slug dream_prompt_hash framework launch_command notes now
  match builds.findIdx? (fun b => b.buildId == some build_id) with
  | some i => builds.set i build_entry
  | none => builds ++ [build_entry]

/-! ## `validate_build_registry` (build_registry.py, lines 219-259) -/

/-- A single-quote character, used in the validator's error messages. -/
def sQuote : String := String.singleton (Char.ofNat 39)

/-- The `required_fields` list of `validate_build_registry` (line 241). -/
def requiredFields : List String :=
  ["buildId", "name", "slug", "origin", "buildPath", "status", "createdAt"]

/-- `field in build` for the seven required keys of a build record. -/
def hasField (b : BuildRec) (f : String) : Bool :=
  if f == "buildId" then b.buildId.isSome
  else if f == "name" then b.name.isSome
  else if f == "slug" then b.slug.isSome
  else if f == "origin" then b.origin.isSome
  else if f == "buildPath" then b.buildPath.isSome
  else if f == "status" then b.status.isSome
  else if f == "createdAt" then b.createdAt.isSome
  else true

/-- The missing-required-field errors for record `i` (lines 242-244),
in the order of `required_fields`. -/
def missing_field_errors (i : Nat) (b : BuildRec) : List String :=
  (requiredFields.filter (fun f => !hasField b f)).map
    (fun f => "Build " ++ toString i ++ ": missing required field " ++ sQuote ++ f ++ sQuote)

/-- The origin-object errors for record `i` (lines 247-257): `mode` is
required; a `dream`-mode record needs a truthy `dreamPromptHash`, else
(`elif`) a `pipeline`-mode record needs a truthy `runId`. -/
def origin_errors (i : Nat) (og : Origin) : List String :=
  (if og.mode.isSome then []
   else ["Build " ++ toString i ++ ": origin missing required field " ++ sQuote ++ "mode" ++ sQuote]) ++
  (if og.mode == some "dream" && !(pyTruthy og.dreamPromptHash) then
     ["Build " ++ toString i ++ ": dream mode build missing dreamPromptHash"]
   else if og.mode == some "pipeline" && !(pyTruthy og.runId) then
     ["Build " ++ toString i ++ ": pipeline mode build missing runId"]
   else [])

/-- All errors contributed by record `i` (the body of the loop at line 240). -/
def record_errors (i : Nat) (b : BuildRec) : List String :=
  missing_field_errors i b ++
    (match b.origin with
     | some og => origin_errors i og
     | none => [])

/-- The document-level part of `validate_build_registry` (lines 235-259):
a missing `builds` key is fatal; otherwise the errors of all records are
collected in index order. -/
def validate_registry_doc (doc : RegistryDoc) : List String :=
  match doc.builds with
  | none => ["Registry missing " ++ sQuote ++ "builds" ++ sQuote ++ " field"]
  | some builds => (builds.enum.map (fun p => record_errors p.1 p.2)).flatten

/-- `validate_build_registry()` (lines 219-259): a missing registry file is
fatal; otherwise the file is loaded with `load_build_registry` (whose parse
failures degrade to an empty registry, so the `except` branch at lines
230-232 is unreachable) and the document is checked structurally. -/
def validate_build_registry (file : RegistryFile) (registry_path now : String) : List String :=
  match file.content with
  | none => ["Build registry not found at " ++ registry_path]
  | some _ => validate_registry_doc (load_build_registry file now).1

/-! ## JSON values and Python `dict.get` -/

/-- A JSON value, as produced by `json.load` / `json.loads`. -/
inductive J where
  | null
  | bool (v : Bool)
  | str (v : String)
  | num (v : Int)
  | arr (items : List J)
  | obj (fields : List (String × J))

/-- First binding of a key in a JSON object's field list. -/
def lookupJ : List (String × J) → String → Option J
  | [], _ => none
  | (k, v) :: rest, key => if k == key then some v else lookupJ rest key

/-- Python `receiver.get(k, default)`: `none` models the `AttributeError`
raised when the receiver is not a dict; otherwise the bound value, or the
default when the key is absent. -/
def pyGet (j : J) (k : String) (dflt : J) : Option J :=
  match j with
  | .obj fields => some ((lookupJ fields k).getD dflt)
  | _ => none

/-- Python truthiness of a JSON value. -/
def jTruthy : J → Bool
  | .null => false
  | .bool v => v
  | .str v => v != ""
  | .num v => v != 0
  | .arr items => !items.isEmpty
  | .obj fields => !fields.isEmpty

/-! ## `run_command` (build_validator.py, lines 16-48) -/

structure CmdResult where
  command : String
  returncode : Int
  stdout : String
  stderr : String
  success : Bool
deriving DecidableEq

/-- The observable outcome of one `subprocess.run` call: normal completion
with an exit code and captured output, a `TimeoutExpired`, or any other
launch exception (with its message). -/
inductive SubprocOutcome where
  | completed (returncode : Int) (stdout stderr : String)
  | timedOut
  | launchError (msg : String)
deriving DecidableEq

/-- `run_command(command, cwd=None, timeout=30)`: build a `CmdResult` from
the subprocess outcome.  Completion strips the captured output and sets
`success` iff the exit code is zero; a timeout or a launch exception becomes
a synthetic failed result — no outcome escapes as an exception. -/
def run_command (command : List String) (outcome : SubprocOutcome)
    (timeout : Nat := 30) : CmdResult :=
  match outcome with
  | .completed rc out err =>
    { command := String.intercalate " " command, returncode := rc,
      stdout := pyStrip out, stderr := pyStrip err, success := rc == 0 }
  | .timedOut =>
    { command := String.intercalate " " command, returncode := -1, stdout := "",
      stderr := "Command timed out after " ++ toString timeout ++ "s", success := false }
  | .launchError m =>
    { command := String.intercalate " " command, returncode := -1, stdout := "",
      stderr := m, success := false }

/-! ## Environment of `validate_expo_build`

All effects of the validator are read from an `Env`: file existence, the
outcome of opening and JSON-parsing the two manifest files, subprocess
outcomes (as a function of the argv and of the process working directory at
the call), `json.loads` on command output, and whether `os.chdir` to a given
directory succeeds.  `exnText` stands for the `str(e)` of an exception whose
text the model does not predict. -/

structure Env where
  buildPathExists : Bool
  packageJsonFile : Option (Except String J)
  appJsonFile : Option (Except String J)
  entryFileExists : String → Bool
  runOutcome : List String → String → SubprocOutcome
  parseJson : String → Option J
  chdirOk : String → Bool
  exnText : String
  nowIso : String

/-- `get_node_version()` (lines 50-53). -/
def get_node_version (env : Env) (cwd : String) : Option String :=
  let result := run_command ["node", "--version"] (env.runOutcome ["node", "--version"] cwd)
  if result.success then some result.stdout else none

/-- `get_npm_version()` (lines 55-58). -/
def get_npm_version (env : Env) (cwd : String) : Option String :=
  let result := run_command ["npm", "--version"] (env.runOutcome ["npm", "--version"] cwd)
  if result.success then some result.stdout else none

/-! ## The validation report (lines 63-90) -/

structure Validation where
  packageJsonExists : Bool := false
  appJsonExists : Bool := false
  hasValidBundleIdentifier : Bool := false
  hasValidAndroidPackage : Bool := false
  hasMandatoryFiles : Bool := false
  expoInstallCheck : Bool := false
deriving DecidableEq

structure ExpoInfo where
  version : Option String := none
  sdkVersion : Option J := none
  config : Option J := none

structure DepsInfo where
  strategy : String := "expo-install-compatibility"
  expoModules : List String := []
  issues : List String := []
deriving DecidableEq

structure Report where
  validatedAt : String
  buildPath : String
  nodeVersion : Option String
  npmVersion : Option String
  packageManager : String := "npm"
  validation : Validation := {}
  expo : ExpoInfo := {}
  dependencies : DepsInfo := {}
  commands : List (String × CmdResult) := []
  errors : List String := []
  warnings : List String := []

/-- The freshly initialised `validation_report` dict (lines 63-90): every
flag false, empty lists, and the node/npm versions probed from the current
working directory. -/
def init_report (env : Env) (build_path cwd : String) : Report :=
  { validatedAt := env.nowIso, buildPath := build_path,
    nodeVersion := get_node_version env cwd, npmVersion := get_npm_version env cwd }

/-! ### Elementary report mutations

Each Python statement mutating `validation_report` is one of the following
five updates; the phases below are their sequential composition. -/

/-- `validation_report["errors"].append(msg)`. -/
def withError (msg : String) (r : Report) : Report :=
  { r with errors := r.errors ++ [msg] }

/-- `validation_report["warnings"].append(msg)`. -/
def withWarning (msg : String) (r : Report) : Report :=
  { r with warnings := r.warnings ++ [msg] }

/-- `validation_report["commands"][key] = res` (keys are written once each). -/
def withCommand (key : String) (res : CmdResult) (r : Report) : Report :=
  { r with commands := r.commands ++ [(key, res)] }

/-- An update of a field of `validation_report["validation"]`. -/
def withValidation (f : Validation → Validation) (r : Report) : Report :=
  { r with validation := f r.validation }

/-- An update of a field of `validation_report["expo"]`. -/
def withExpo (f : ExpoInfo → ExpoInfo) (r : Report) : Report :=
  { r with expo := f r.expo }

/-- An update of a field of `validation_report["dependencies"]`. -/
def withDeps (f : DepsInfo → DepsInfo) (r : Report) : Report :=
  { r with dependencies := f r.dependencies }

/-! ## The phases of `validate_expo_build` -/

/-- One iteration of the hardcoded-version loop (lines 111-116): look up the
module's version; a falsy version is skipped; `version.startswith` on a
non-string raises (`.error`); otherwise a tilde-pinned non-caret version
yields an issue message. -/
def expo_issue_check (depFields : List (String × J)) (module : String) :
    Except Unit (Option String) :=
  let version := (lookupJ depFields module).getD (J.str "")
  if jTruthy version then
    match version with
    | J.str s =>
      .ok (if !pyStartswith s "^" && s.data.contains '~' then
             some ("Hardcoded version for " ++ module ++ ": " ++ s ++
                   " (should use expo install)")
           else none)
    | _ => .error ()
  else .ok none

/-- The hardcoded-version loop over the expo modules: the issue messages
appended before any raise, and whether a raise occurred (aborting the loop). -/
def expo_issues_loop (depFields : List (String × J)) : List String → List String × Bool
  | [] => ([], false)
  | m :: rest =>
    match expo_issue_check depFields m with
    | .error _ => ([], true)
    | .ok none => expo_issues_loop depFields rest
    | .ok (some msg) =>
      let (more, raised) := expo_issues_loop depFields rest
      (msg :: more, raised)

/-- The `package.json` phase (lines 97-121).  A missing file is an error;
an existing file sets `packageJsonExists` first; any exception inside the
`try` (parse failure, a non-dict where `.get`/`.keys` is called, a non-string
version reaching `.startswith`) appends a `Could not parse package.json`
error, keeping the mutations already performed. -/
def package_json_phase (env : Env) (r : Report) : Report :=
  match env.packageJsonFile with
  | none => withError "package.json not found" r
  | some pf =>
    let r1 := withValidation (fun v => { v with packageJsonExists := true }) r
    match pf with
    | .error e => withError ("Could not parse package.json: " ++ e) r1
    | .ok package_data =>
      match pyGet package_data "dependencies" (J.obj []) with
      | none => withError ("Could not parse package.json: " ++ env.exnText) r1
      | some dependencies =>
        match dependencies with
        | J.obj depFields =>
          let expo_modules := (depFields.map (fun p => p.1)).filter
            (fun d => pyStartswith d "expo-")
          let r2 := withDeps (fun d => { d with expoModules := expo_modules }) r1
          let issuesRaised := expo_issues_loop depFields expo_modules
          let r3 := withDeps (fun d => { d with issues := d.issues ++ issuesRaised.1 }) r2
          if issuesRaised.2 then
            withError ("Could not parse package.json: " ++ env.exnText) r3
          else r3
        | _ => withError ("Could not parse package.json: " ++ env.exnText) r1

/-- The identifier lookups of the `app.json` phase (lines 131-135):
`app_data.get("expo", {})`, then `.get("ios", {}).get("bundleIdentifier")`
and `.get("android", {}).get("package")`.  `none` models an
`AttributeError` raised by a `.get` on a non-dict receiver. -/
def appIdLookups (app_data : J) : Option (J × J) := do
  let expo_config ← pyGet app_data "expo" (J.obj [])
  let ios_section ← pyGet expo_config "ios" (J.obj [])
  let ios_bundle ← pyGet ios_section "bundleIdentifier" J.null
  let android_section ← pyGet expo_config "android" (J.obj [])
  let android_package ← pyGet android_section "package" J.null
  pure (ios_bundle, android_package)

/-- The android half of the `app.json` phase (lines 146-153), reached only
when the two identifier lookups (lines 134-135) did not raise and the ios
half did not raise. -/
def app_json_android (env : Env) (android_package : J) (r : Report) : Report :=
  if jTruthy android_package then
    let r1 := withValidation (fun v => { v with hasValidAndroidPackage := true }) r
    match android_package with
    | J.str s =>
      if !pyStartswith s "com.appfactory." then
        withWarning ("Android package " ++ sQuote ++ s ++ sQuote ++ " doesn" ++ sQuote ++
          "t follow com.appfactory.* pattern") r1
      else r1
    | _ => withError ("Could not parse app.json: " ++ env.exnText) r1
  else withError "Missing android.package in app.json" r

/-- The `app.json` phase (lines 123-158).  A missing file is an error; an
existing file sets `appJsonExists` first; the nested lookups of the ios
bundle identifier and android package (lines 131-135) raise on non-dict
receivers; a truthy ios bundle sets `hasValidBundleIdentifier` before the
prefix test, which warns on a non-`com.appfactory.` prefix and raises on a
non-string; a falsy one is a `Missing ios.bundleIdentifier` error. -/
def app_json_phase (env : Env) (r : Report) : Report :=
  match env.appJsonFile with
  | none => withError "app.json not found" r
  | some af =>
    let r1 := withValidation (fun v => { v with appJsonExists := true }) r
    match af with
    | .error e => withError ("Could not parse app.json: " ++ e) r1
    | .ok app_data =>
      match appIdLookups app_data with
      | none => withError ("Could not parse app.json: " ++ env.exnText) r1
      | some pair =>
        if jTruthy pair.1 then
          let r2 := withValidation (fun v => { v with hasValidBundleIdentifier := true }) r1
          match pair.1 with
          | J.str s =>
            let r3 := if !pyStartswith s "com.appfactory." then
                withWarning ("Bundle identifier " ++ sQuote ++ s ++ sQuote ++ " doesn" ++
                  sQuote ++ "t follow com.appfactory.* pattern") r2
              else r2
            app_json_android env pair.2 r3
          | _ => withError ("Could not parse app.json: " ++ env.exnText) r2
        else
          app_json_android env pair.2
            (withError "Missing ios.bundleIdentifier in app.json" r1)

/-- The `mandatory_files` candidate list (line 161). -/
def mandatory_files : List String :=
  ["App.js", "App.tsx", "app/_layout.tsx", "app/_layout.js", "app/index.tsx", "app/index.js"]

/-- The entry-point phase (lines 160-166). -/
def entry_point_phase (env : Env) (r : Report) : Report :=
  let has_entry_point := mandatory_files.any env.entryFileExists
  let r1 := withValidation (fun v => { v with hasMandatoryFiles := has_entry_point }) r
  if !has_entry_point then
    withError "No valid entry point found (App.js, App.tsx, or app/_layout.tsx)" r1
  else r1

/-- The version block of the command phase (lines 173-177): record the
command under its key and, on success, store the stripped stdout as the
expo version. -/
def cmd_version_step (env : Env) (build_path : String) (r : Report) : Report :=
  let verArgv := ["npx", "expo", "--version"]
  let expo_version_result := run_command verArgv (env.runOutcome verArgv build_path)
  let r1 := withCommand "expo_version" expo_version_result r
  if expo_version_result.success then
    withExpo (fun e => { e with version := some expo_version_result.stdout }) r1
  else r1

/-- The config-dump block (lines 179-188): record the command; on success
parse its stdout, downgrading a parse failure or a lookup on a non-dict
(`.get` raise) to a warning; the `config` assignment precedes the
`sdkVersion` lookup, so it survives a raise there. -/
def cmd_config_step (env : Env) (build_path : String) (r : Report) : Report :=
  let cfgArgv := ["npx", "expo", "config", "--type", "public"]
  let expo_config_result := run_command cfgArgv (env.runOutcome cfgArgv build_path)
  let r1 := withCommand "expo_config" expo_config_result r
  if expo_config_result.success then
    match env.parseJson expo_config_result.stdout with
    | none => withWarning "Could not parse expo config JSON" r1
    | some config_data =>
      let r2 := withExpo (fun e => { e with config := some config_data }) r1
      match (do
          let e ← pyGet config_data "expo" (J.obj [])
          pyGet e "sdkVersion" J.null : Option J) with
      | none => withWarning "Could not parse expo config JSON" r2
      | some sdk => withExpo (fun e => { e with sdkVersion := some sdk }) r2
  else r1

/-- The install-check block (lines 190-198): record the command, set the
`expoInstallCheck` flag to its success, and warn on failure. -/
def cmd_install_step (env : Env) (build_path : String) (r : Report) : Report :=
  let insArgv := ["npx", "expo", "install", "--check"]
  let expo_install_result := run_command insArgv (env.runOutcome insArgv build_path)
  let r1 := withCommand "expo_install_check" expo_install_result r
  let r2 := withValidation
    (fun v => { v with expoInstallCheck := expo_install_result.success }) r1
  if !expo_install_result.success then
    withWarning "Expo install check failed - dependencies may be incompatible" r2
  else r2

/-- The doctor block (lines 200-202): record the command. -/
def cmd_doctor_step (env : Env) (build_path : String) (r : Report) : Report :=
  let docArgv := ["npx", "expo-doctor"]
  withCommand "expo_doctor" (run_command docArgv (env.runOutcome docArgv build_path)) r

/-- The body of the external-command phase (lines 173-202), executed with the
process working directory at `build_path`: the four diagnostic commands in
order. -/
def commands_phase_body (env : Env) (build_path : String) (r : Report) : Report :=
  cmd_doctor_step env build_path
    (cmd_install_step env build_path
      (cmd_config_step env build_path
        (cmd_version_step env build_path r)))

/-- The external-command phase with its `try`/`except`/`finally` (lines
168-207).  A failing `os.chdir(build_path)` raises inside the `try`, so the
`except` records an execution error and the body is skipped; the `finally`
always restores the original working directory — if that restoring `chdir`
itself fails, the exception propagates and the function does not return
(`none`). -/
def commands_phase (env : Env) (build_path cwd0 : String) (r : Report) :
    Option (Report × String) :=
  let r1 := if env.chdirOk build_path then commands_phase_body env build_path r
    else { r with errors := r.errors ++ ["Error during command execution: " ++ env.exnText] }
  if env.chdirOk cwd0 then some (r1, cwd0) else none

/-- `validate_expo_build(build_path)` (lines 60-209), with the process
working directory threaded explicitly: the result is `some (report, cwd)`
when the function returns (with `cwd` the working directory after the call),
and `none` when the restoring `chdir` of the `finally` block raises. -/
def validate_expo_build (env : Env) (build_path cwd0 : String) :
    Option (Report × String) :=
  let validation_report := init_report env build_path cwd0
  if !env.buildPathExists then
    some (withError ("Build path does not exist: " ++ build_path) validation_report, cwd0)
  else
    let r := package_json_phase env validation_report
    let r := app_json_phase env r
    let r := entry_point_phase env r
    commands_phase env build_path cwd0 r

/-! ## Predicates and fixtures used in the statements of the theorems -/

/-- The scan predicate of `register_build`'s update loop. -/
def hasBuildId (build_id : String) (b : BuildRec) : Bool :=
  b.buildId == some build_id

/-- First-match-replace-else-append, the recursive reading of
`register_build`'s index scan followed by `set`-or-append. -/
def upsertRec (p : BuildRec → Bool) (e : BuildRec) : List BuildRec → List BuildRec
  | [] => [e]
  | b :: rest => if p b then e :: rest else b :: upsertRec p e rest

/-- One expo-module version is safe for the hardcoded-version loop: either a
string, or falsy (skipped).  A truthy non-string reaches `.startswith` and
raises. -/
def versionOk (depFields : List (String × J)) (m : String) : Bool :=
  match (lookupJ depFields m).getD (J.str "") with
  | J.str _ => true
  | v => !jTruthy v

/-- The claim's "well-formed `package.json`": it parses to a dict whose
`dependencies` value (defaulting to `{}`) is a dict in which no truthy
non-string version is bound to an `expo-` module. -/
def pkgWellFormed (package_data : J) : Bool :=
  match pyGet package_data "dependencies" (J.obj []) with
  | some (J.obj depFields) =>
    ((depFields.map (fun p => p.1)).filter (fun d => pyStartswith d "expo-")).all
      (versionOk depFields)
  | _ => false

/-- The claim's "well-formed `app.json` with compliant bundle identifiers":
the identifier lookups succeed and both identifiers are strings with the
`com.appfactory.` prefix. -/
def appWellFormedCompliant (app_data : J) : Bool :=
  match appIdLookups app_data with
  | some (J.str s, J.str t) =>
    pyStartswith s "com.appfactory." && pyStartswith t "com.appfactory."
  | _ => false

/-- A build record with no structural violation for
`validate_build_registry`: all required fields present, `origin.mode`
present, and the mode-specific field truthy. -/
def recClean (b : BuildRec) : Bool :=
  (requiredFields.all (hasField b)) &&
  (match b.origin with
   | some og =>
     og.mode.isSome &&
     !(og.mode == some "dream" && !(pyTruthy og.dreamPromptHash)) &&
     !(og.mode == some "pipeline" && !(pyTruthy og.runId))
   | none => false)

/-- A parsed `package.json` with one caret-pinned expo dependency. -/
def pkgGoodJ : J :=
  J.obj [("dependencies", J.obj [("expo-camera", J.str "^1.0.0"), ("react", J.str "18.0.0")])]

/-- A parsed `app.json` with compliant ios and android identifiers. -/
def appGoodJ : J :=
  J.obj [("expo", J.obj
    [("ios", J.obj [("bundleIdentifier", J.str "com.appfactory.demo")]),
     ("android", J.obj [("package", J.str "com.appfactory.demo")])])]

/-- A parsed `app.json` whose identifiers are present but do not follow the
`com.appfactory.*` pattern. -/
def appOtherJ : J :=
  J.obj [("expo", J.obj
    [("ios", J.obj [("bundleIdentifier", J.str "org.example.demo")]),
     ("android", J.obj [("package", J.str "org.example.demo")])])]

/-- An environment for a well-formed build directory in which every external
command times out. -/
def envAllFail : Env :=
  { buildPathExists := true,
    packageJsonFile := some (.ok pkgGoodJ),
    appJsonFile := some (.ok appGoodJ),
    entryFileExists := fun f => f == "App.js",
    runOutcome := fun _ _ => .timedOut,
    parseJson := fun _ => none,
    chdirOk := fun _ => true,
    exnText := "exn",
    nowIso := "2024-01-01T00:00:00" }

/-- An environment whose build path does not exist. -/
def envMissing : Env :=
  { buildPathExists := false,
    packageJsonFile := none,
    appJsonFile := none,
    entryFileExists := fun _ => false,
    runOutcome := fun _ _ => .timedOut,
    parseJson := fun _ => none,
    chdirOk := fun _ => true,
    exnText := "exn",
    nowIso := "2024-01-01T00:00:00" }

/-- An environment with non-compliant (but present) bundle identifiers. -/
def envOther : Env :=
  { envAllFail with appJsonFile := some (.ok appOtherJ) }

/-- A registered-looking build record in dream mode with no
`dreamPromptHash`. -/
def recDreamBad : BuildRec :=
  { buildId := some "deadbeef00000000", name := some "Demo", slug := some "demo",
    origin := some { mode := some "dream", runId := some "run-1" },
    buildPath := some "builds/demo", status := some "success",
    createdAt := some "2024-01-01T00:00:00" }

/-- A registered-looking build record in pipeline mode with no `runId`. -/
def recPipelineBad : BuildRec :=
  { buildId := some "deadbeef00000001", name := some "Demo2", slug := some "demo2",
    origin := some { mode := some "pipeline", ideaSlug := some "idea-1" },
    buildPath := some "builds/demo2", status := some "failed",
    createdAt := some "2024-01-01T00:00:00" }

/-- A registry file whose document holds the two bad records above. -/
def fileBad : RegistryFile :=
  { content := some (some { updatedAt := some "2024-01-01T00:00:00",
                            builds := some [recDreamBad, recPipelineBad] }) }

/-- A registry document used for the save/load round-trip fixture. -/
def docW : RegistryDoc :=
  { updatedAt := some "2024-01-01T00:00:00", builds := some [recDreamBad] }


/-! # Theorems -/

/-! ## C1: `generate_bundle_identifier` examples and length bound -/

/-- Length of the fixed prefix literal. -/
theorem base_length_eq : ("com.appfactory" : String).length = 14 := rfl

/-- Length of the separating dot literal. -/
theorem dot_length_eq : ("." : String).length = 1 := rfl

/--
C1 (amended).  The two example evaluations hold, and the output length of
`generate_bundle_identifier` is bounded by `max_length` whenever
`max_length ≥ 15` (the length of the fixed prefix `com.appfactory` plus one
for the separating dot).  For smaller `max_length` the Python slice bound
`max_length - len(base) - 1` is negative, the slice counts from the end of
the slug, and the prefix alone already exceeds `max_length` (see the
counterexample theorem).
-/
theorem generate_bundle_identifier_spec :
    (∀ (slug : String) (max_length : Nat), 15 ≤ max_length →
      (generate_bundle_identifier slug max_length).length ≤ max_length)
    ∧ generate_bundle_identifier "My Cool App!" 50 = "com.appfactory.my.cool.app"
    ∧ generate_bundle_identifier "" 50 = "com.appfactory.app" := by
  refine ⟨?_, by decide, by decide⟩
  intro slug max_length h
  unfold generate_bundle_identifier
  simp only
  set cs := clean_slug_of slug with hcs
  set bid := if cs ≠ [] then "com.appfactory" ++ "." ++ String.mk cs
    else "com.appfactory" ++ "." ++ "app" with hbid
  by_cases hgt : bid.length > max_length
  · rw [if_pos hgt]
    simp only [String.length_append, String.length_mk, base_length_eq, dot_length_eq]
    unfold pySliceTo
    split <;> (simp only [List.length_take]; omega)
  · rw [if_neg hgt]
    omega

/-- Witness for the hypothesis `15 ≤ max_length` of C1's bound. -/
theorem generate_bundle_identifier_spec_witness :
    15 ≤ 50 ∧ (generate_bundle_identifier "My Cool App!" 50).length ≤ 50 :=
  ⟨by decide, generate_bundle_identifier_spec.1 "My Cool App!" 50 (by decide)⟩

/--
C1 (counterexample).  At `slug = ""`, `max_length = 10` the claimed bound
fails: the identifier built first is `com.appfactory.app` of length 18, the
truncation slice bound is `10 - 14 - 1 = -5`, and the truncated result
`com.appfactory.` still has length 15 > 10.
-/
theorem generate_bundle_identifier_exceeds_max :
    ¬ ((generate_bundle_identifier "" 10).length ≤ 10) := by decide

/-! ## C2: `generate_build_id` determinism and collisions -/

/-- One round of the compression function preserves the state length. -/
theorem sha256Round_length (w st : List Nat) (t : Nat) :
    (sha256Round w st t).length = st.length := by
  unfold sha256Round
  split <;> simp_all

/-- Folding rounds preserves the state length. -/
theorem foldl_round_length (w : List Nat) (l : List Nat) (st : List Nat) :
    (l.foldl (sha256Round w) st).length = st.length := by
  induction l generalizing st with
  | nil => rfl
  | cons x xs ih => simp [List.foldl_cons, ih, sha256Round_length]

/-- Compressing a block preserves the state length. -/
theorem compressBlock_length (h b : List Nat) :
    (compressBlock h b).length = h.length := by
  unfold compressBlock
  simp [List.length_zip, foldl_round_length]

/-- Folding block compressions preserves the state length. -/
theorem foldl_compress_length (f : Nat → List Nat) (l : List Nat) (h : List Nat) :
    (l.foldl (fun acc i => compressBlock acc (f i)) h).length = h.length := by
  induction l generalizing h with
  | nil => rfl
  | cons x xs ih => simp [List.foldl_cons, ih, compressBlock_length]

/-- A SHA-256 digest consists of 8 words. -/
theorem sha256Words_length (s : String) : (sha256Words s).length = 8 := by
  unfold sha256Words
  simp only
  rw [foldl_compress_length]
  rfl

/-- Each digest word yields 8 hex characters. -/
theorem wordHex_length (w : Nat) : (wordHex w).length = 8 := by
  simp [wordHex]

/-- Hex-encoding a word list yields `8 *` its length in characters. -/
theorem flatten_map_wordHex_length (ws : List Nat) :
    ((ws.map wordHex).flatten).length = 8 * ws.length := by
  induction ws with
  | nil => rfl
  | cons w ws ih => simp [wordHex_length, ih]; ring

/-- A hexdigest has 64 characters. -/
theorem sha256HexChars_length (s : String) : (sha256HexChars s).length = 64 := by
  unfold sha256HexChars
  rw [flatten_map_wordHex_length, sha256Words_length]

/-- `hexDigit` maps `0..15` into the hex alphabet. -/
theorem hexDigit_mem : ∀ n < 16, hexDigit n ∈ ("0123456789abcdef").data := by decide

/-- Every character of a word's hex encoding is a hex digit. -/
theorem mem_wordHex_hex (c : Char) (w : Nat) (hc : c ∈ wordHex w) :
    c ∈ ("0123456789abcdef").data := by
  unfold wordHex at hc
  rw [List.mem_map] at hc
  obtain ⟨i, _, rfl⟩ := hc
  exact hexDigit_mem _ (Nat.mod_lt _ (by omega))

/-- A build id is 16 characters long and consists of hex digits. -/
theorem generate_build_id_hex (p : String) (d : Option String) :
    (generate_build_id p d).length = 16 ∧
    ∀ c ∈ (generate_build_id p d).data, c ∈ ("0123456789abcdef").data := by
  constructor
  · show (String.mk _).length = 16
    rw [String.length_mk, List.length_take, sha256HexChars_length]
    decide
  · intro c hc
    show c ∈ ("0123456789abcdef").data
    have hc' : c ∈ sha256HexChars (hash_input p d) := List.mem_of_mem_take hc
    unfold sha256HexChars at hc'
    rw [List.mem_flatten] at hc'
    obtain ⟨l, hl, hcl⟩ := hc'
    rw [List.mem_map] at hl
    obtain ⟨w, _, rfl⟩ := hl
    exact mem_wordHex_hex c w hcl

/--
C2 (amended).  `generate_build_id` is a pure deterministic function — equal
`(buildPath, additional_data)` pairs always yield the same 16-hex-character
id — and its value depends only on the concatenated string
`hash_input = buildPath + (additional_data if truthy)`.  Consequently
distinct input pairs whose concatenations coincide always collide (see the
counterexample), so collision-freedom over distinct *pairs* cannot hold; for
pairs with distinct concatenations, collision resistance is that of SHA-256
and is not a theorem of this embedding.
-/
theorem generate_build_id_deterministic :
    (∀ (build_path : String) (additional_data : Option String),
       generate_build_id build_path additional_data =
         generate_build_id build_path additional_data
       ∧ (generate_build_id build_path additional_data).length = 16
       ∧ ∀ c ∈ (generate_build_id build_path additional_data).data,
           c ∈ ("0123456789abcdef").data)
    ∧ (∀ (p p' : String) (d d' : Option String),
        hash_input p d = hash_input p' d' →
        generate_build_id p d = generate_build_id p' d') := by
  constructor
  · intro p d
    exact ⟨rfl, (generate_build_id_hex p d).1, (generate_build_id_hex p d).2⟩
  · intro p p' d d' h
    unfold generate_build_id
    rw [h]

/-- Witness for C2's hypotheses at a concrete colliding concatenation. -/
theorem generate_build_id_deterministic_witness :
    hash_input "ab" (some "c") = hash_input "abc" none ∧
    generate_build_id "ab" (some "c") = generate_build_id "abc" none :=
  ⟨by decide, generate_build_id_deterministic.2 "ab" "abc" (some "c") none (by decide)⟩

/--
C2 (counterexample).  The distinct input pairs `("ab", "c")` and
`("abc", None)` produce the *same* id with certainty, because
`generate_build_id` concatenates the path and the disambiguator before
hashing: the claim that distinct pairs produce distinct ids with
overwhelming probability fails for them (they collide with probability 1).
-/
theorem generate_build_id_pair_collision :
    (("ab", some "c") ≠ (("abc" : String), (none : Option String))) ∧
    generate_build_id "ab" (some "c") = generate_build_id "abc" none := by
  constructor
  · decide
  · unfold generate_build_id
    rw [(by decide : hash_input "ab" (some "c") = hash_input "abc" none)]

/-! ## C3: `register_build` upserts by build id -/

/-- The index-scan-then-set-or-append of `register_build` equals a
first-match replace-else-append recursion. -/
theorem register_scan_eq_upsert (p : BuildRec → Bool) (e : BuildRec) (l : List BuildRec) :
    (match l.findIdx? p with
     | some i => l.set i e
     | none => l ++ [e]) = upsertRec p e l := by
  induction l with
  | nil => rfl
  | cons b rest ih =>
    by_cases hb : p b = true
    · simp [List.findIdx?_cons, hb, upsertRec]
    · have hb' : p b = false := by simpa using hb
      simp only [upsertRec, hb', Bool.false_eq_true, if_false]
      rw [← ih]
      simp only [List.findIdx?_cons, hb', Bool.false_eq_true, if_false, List.findIdx?_succ]
      cases hr : rest.findIdx? p with
      | none => simp
      | some j => simp

/-- Upserting grows the list only when no record matches. -/
theorem length_upsert (p : BuildRec → Bool) (e : BuildRec) (l : List BuildRec) :
    (upsertRec p e l).length = if l.any p then l.length else l.length + 1 := by
  induction l with
  | nil => rfl
  | cons b rest ih =>
    by_cases hb : p b = true
    · simp [upsertRec, hb]
    · have hb' : p b = false := by simpa using hb
      simp [upsertRec, hb', ih]
      split <;> simp

/-- Effect of an upsert on the multiset of build ids: unchanged when the id
was present, extended by the id otherwise. -/
theorem ids_upsert (id : String) (e : BuildRec) (he : e.buildId = some id)
    (l : List BuildRec) :
    (upsertRec (fun b => b.buildId == some id) e l).filterMap (fun b => b.buildId) =
      if l.any (fun b => b.buildId == some id) then l.filterMap (fun b => b.buildId)
      else l.filterMap (fun b => b.buildId) ++ [id] := by
  induction l with
  | nil => simp [upsertRec, he]
  | cons b rest ih =>
    by_cases hb : (b.buildId == some id) = true
    · have hbid : b.buildId = some id := by simpa [beq_iff_eq] using hb
      simp [upsertRec, hb, List.filterMap_cons, he, hbid]
    · have hb' : (b.buildId == some id) = false := by simpa using hb
      simp only [upsertRec, hb', Bool.false_eq_true, if_false, List.any_cons,
        Bool.false_or, List.filterMap_cons]
      cases hbid : b.buildId with
      | none => simp [ih]
      | some x =>
        simp only [ih]
        split <;> simp

/-- A record with a given id exists iff the id occurs among the build ids. -/
theorem any_id_iff_mem (id : String) (l : List BuildRec) :
    l.any (fun b => b.buildId == some id) = true ↔
      id ∈ l.filterMap (fun b => b.buildId) := by
  simp [List.any_eq_true, List.mem_filterMap, beq_iff_eq]

/--
C3.  `register_build` preserves the at-most-one-record-per-`buildId`
invariant: when the computed id already occurs, the existing record is
replaced at its position (`set i`) and, in particular, a second registration
producing the same id leaves the length of the builds list unchanged; when
the id is absent, the new entry is appended.
-/
theorem register_build_core_spec
    (builds : List BuildRec) (name slug mode build_path status : String)
    (run_id idea_slug dream_prompt_hash : Option String)
    (framework launch_command notes now : String)
    (hinv : (builds.filterMap (fun b => b.buildId)).Nodup) :
    let build_id := generate_build_id build_path (pyOrOpt dream_prompt_hash run_id)
    let entry := build_entry_of build_id name slug mode build_path status run_id
      idea_slug dream_prompt_hash framework launch_command notes now
    let l1 := register_build_core builds name slug mode build_path status run_id
      idea_slug dream_prompt_hash framework launch_command notes now
    ((l1.filterMap (fun b => b.buildId)).Nodup
     ∧ (∀ i, builds.findIdx? (fun b => b.buildId == some build_id) = some i →
         l1 = builds.set i entry)
     ∧ (build_id ∉ builds.filterMap (fun b => b.buildId) →
         l1 = builds ++ [entry])
     ∧ (∀ (name2 slug2 mode2 build_path2 status2 : String)
          (run_id2 idea_slug2 dream_prompt_hash2 : Option String)
          (framework2 launch_command2 notes2 now2 : String),
          generate_build_id build_path2 (pyOrOpt dream_prompt_hash2 run_id2) = build_id →
          (register_build_core l1 name2 slug2 mode2 build_path2 status2 run_id2
            idea_slug2 dream_prompt_hash2 framework2 launch_command2 notes2
            now2).length = l1.length)) := by
  intro build_id entry l1
  have hl1 : l1 = upsertRec (fun b => b.buildId == some build_id) entry builds := by
    show register_build_core builds name slug mode build_path status run_id
      idea_slug dream_prompt_hash framework launch_command notes now = _
    unfold register_build_core
    exact register_scan_eq_upsert _ _ _
  have hids : l1.filterMap (fun b => b.buildId) =
      if builds.any (fun b => b.buildId == some build_id) then
        builds.filterMap (fun b => b.buildId)
      else builds.filterMap (fun b => b.buildId) ++ [build_id] := by
    rw [hl1]; exact ids_upsert build_id entry rfl builds
  have hmem1 : build_id ∈ l1.filterMap (fun b => b.buildId) := by
    rw [hids]
    split
    · rename_i hany
      exact (any_id_iff_mem build_id builds).mp hany
    · simp
  refine ⟨?_, ?_, ?_, ?_⟩
  · -- invariant preserved
    rw [hids]
    split
    · exact hinv
    · rename_i hany
      have hnm : build_id ∉ builds.filterMap (fun b => b.buildId) := by
        intro hmem
        exact hany ((any_id_iff_mem build_id builds).mpr hmem)
      rw [← List.concat_eq_append]
      exact List.Nodup.concat hnm hinv
  · -- found: replace in place
    intro i hi
    show register_build_core builds name slug mode build_path status run_id
      idea_slug dream_prompt_hash framework launch_command notes now = _
    unfold register_build_core
    simp only [hi]
  · -- absent: append
    intro hnm
    have hany : builds.any (fun b => b.buildId == some build_id) = false := by
      rw [List.any_eq_false]
      intro b hb hpb
      exact hnm ((any_id_iff_mem build_id builds).mp
        (List.any_eq_true.mpr ⟨b, hb, hpb⟩))
    have hnone : builds.findIdx? (fun b => b.buildId == some build_id) = none := by
      rw [List.findIdx?_eq_none_iff]
      intro b hb
      simpa using (List.any_eq_false.mp hany) b hb
    show register_build_core builds name slug mode build_path status run_id
      idea_slug dream_prompt_hash framework launch_command notes now = _
    unfold register_build_core
    simp only [hnone]
  · -- a second registration with the same id does not grow the list
    intro name2 slug2 mode2 build_path2 status2 run_id2 idea_slug2
      dream_prompt_hash2 framework2 launch_command2 notes2 now2 heq
    unfold register_build_core
    rw [heq, register_scan_eq_upsert, length_upsert,
      (any_id_iff_mem build_id l1).mpr hmem1]
    simp

/-- Witness for C3's invariant hypothesis, at the empty registry. -/
theorem register_build_core_spec_witness :
    (([] : List BuildRec).filterMap (fun b => b.buildId)).Nodup ∧
    (let build_id := generate_build_id "builds/demo" (pyOrOpt (some "hash1") (some "run-1"))
     let entry := build_entry_of build_id "Demo" "demo" "dream" "builds/demo" "success"
       (some "run-1") none (some "hash1") "expo" "npx expo start" "" "2024-01-01"
     let l1 := register_build_core [] "Demo" "demo" "dream" "builds/demo" "success"
       (some "run-1") none (some "hash1") "expo" "npx expo start" "" "2024-01-01"
     ((l1.filterMap (fun b => b.buildId)).Nodup
      ∧ (∀ i, ([] : List BuildRec).findIdx? (fun b => b.buildId == some build_id) = some i →
          l1 = ([] : List BuildRec).set i entry)
      ∧ (build_id ∉ ([] : List BuildRec).filterMap (fun b => b.buildId) →
          l1 = [] ++ [entry])
      ∧ (∀ (name2 slug2 mode2 build_path2 status2 : String)
           (run_id2 idea_slug2 dream_prompt_hash2 : Option String)
           (framework2 launch_command2 notes2 now2 : String),
           generate_build_id build_path2 (pyOrOpt dream_prompt_hash2 run_id2) = build_id →
           (register_build_core l1 name2 slug2 mode2 build_path2 status2 run_id2
             idea_slug2 dream_prompt_hash2 framework2 launch_command2 notes2
             now2).length = l1.length))) :=
  ⟨by decide,
   register_build_core_spec [] "Demo" "demo" "dream" "builds/demo" "success"
     (some "run-1") none (some "hash1") "expo" "npx expo start" "" "2024-01-01"
     (by decide)⟩

/-! ## C9: save/load round trip -/

/--
C9.  Saving a registry stamps `updatedAt` with the current time, reports
success, and writes with `sort_keys=True` (and `indent=2`); an immediate
load returns exactly the saved document (whose only difference from the
input is the refreshed `updatedAt`) and leaves the file untouched.  On an
I/O error the save returns `false` without raising and the file is
unchanged.
-/
theorem save_load_round_trip (registry : RegistryDoc) (file : RegistryFile) (now now2 : String) :
    (let res := save_build_registry registry file now true
     res.1 = true
     ∧ res.2.1 = { registry with updatedAt := some now }
     ∧ (load_build_registry res.2.2 now2).1 = { registry with updatedAt := some now }
     ∧ (load_build_registry res.2.2 now2).2 = res.2.2
     ∧ res.2.2.lastDumpArgs = some { indent := 2, sortKeys := true })
    ∧ save_build_registry registry file now false =
        (false, { registry with updatedAt := some now }, file) :=
  ⟨⟨rfl, rfl, rfl, rfl, rfl⟩, rfl⟩

/-! ## C6: structural validation of the registry -/

/-- A structurally clean record contributes no errors. -/
theorem recClean_record_errors (b : BuildRec) (hc : recClean b = true) (i : Nat) :
    record_errors i b = [] := by
  unfold recClean at hc
  rw [Bool.and_eq_true] at hc
  obtain ⟨h1, h2⟩ := hc
  unfold record_errors
  have hm : missing_field_errors i b = [] := by
    unfold missing_field_errors
    rw [List.map_eq_nil_iff, List.filter_eq_nil_iff]
    intro f hf
    simp [List.all_eq_true.mp h1 f hf]
  rw [hm]
  cases ho : b.origin with
  | none => rw [ho] at h2; simp at h2
  | some og =>
    rw [ho] at h2
    simp only [Bool.and_eq_true] at h2
    obtain ⟨⟨hmode, hdream⟩, hpipe⟩ := h2
    unfold origin_errors
    simp only [List.nil_append, hmode, if_true]
    rw [Bool.not_eq_eq_eq_not, Bool.not_true, Bool.and_eq_false_iff] at hdream hpipe
    rcases hdream with hd | hd <;> rcases hpipe with hp | hp <;>
      simp [hd, hp]

/--
C6.  A `dream`-mode record without a truthy `dreamPromptHash` makes
`validate_build_registry` return a non-empty error list containing the
message that names the record's index; symmetrically a `pipeline`-mode
record without a truthy `runId` contributes its indexed error; and a
registry whose records are all structurally clean validates to the empty
list.
-/
theorem validate_build_registry_spec :
    (∀ (file : RegistryFile) (path now : String) (doc : RegistryDoc)
       (builds : List BuildRec) (i : Nat) (rec : BuildRec) (og : Origin),
       file.content = some (some doc) → doc.builds = some builds →
       builds[i]? = some rec → rec.origin = some og → og.mode = some "dream" →
       pyTruthy og.dreamPromptHash = false →
       (("Build " ++ toString i ++ ": dream mode build missing dreamPromptHash")
          ∈ validate_build_registry file path now
        ∧ validate_build_registry file path now ≠ []))
    ∧ (∀ (file : RegistryFile) (path now : String) (doc : RegistryDoc)
       (builds : List BuildRec) (i : Nat) (rec : BuildRec) (og : Origin),
       file.content = some (some doc) → doc.builds = some builds →
       builds[i]? = some rec → rec.origin = some og → og.mode = some "pipeline" →
       pyTruthy og.runId = false →
       (("Build " ++ toString i ++ ": pipeline mode build missing runId")
          ∈ validate_build_registry file path now
        ∧ validate_build_registry file path now ≠ []))
    ∧ (∀ (file : RegistryFile) (path now : String) (doc : RegistryDoc)
       (builds : List BuildRec),
       file.content = some (some doc) → doc.builds = some builds →
       builds.all recClean = true →
       validate_build_registry file path now = []) := by
  have hval : ∀ (file : RegistryFile) (path now : String) (doc : RegistryDoc),
      file.content = some (some doc) →
      validate_build_registry file path now = validate_registry_doc doc := by
    intro file path now doc hc
    unfold validate_build_registry load_build_registry
    rw [hc]
  have hmem : ∀ (doc : RegistryDoc) (builds : List BuildRec) (i : Nat) (rec : BuildRec)
      (msg : String),
      doc.builds = some builds → builds[i]? = some rec →
      msg ∈ record_errors i rec →
      msg ∈ validate_registry_doc doc := by
    intro doc builds i rec msg hb hi hmsg
    unfold validate_registry_doc
    rw [hb]
    simp only
    rw [List.mem_flatten]
    refine ⟨record_errors i rec, ?_, hmsg⟩
    rw [List.mem_map]
    exact ⟨(i, rec), List.mk_mem_enum_iff_getElem?.mpr hi, rfl⟩
  refine ⟨?_, ?_, ?_⟩
  · intro file path now doc builds i rec og hc hb hi ho hm hd
    rw [hval file path now doc hc]
    have hmsg : ("Build " ++ toString i ++ ": dream mode build missing dreamPromptHash")
        ∈ record_errors i rec := by
      unfold record_errors
      rw [List.mem_append, ho]
      right
      unfold origin_errors
      rw [List.mem_append]
      right
      rw [hm]
      simp [hd]
    exact ⟨hmem doc builds i rec _ hb hi hmsg,
      List.ne_nil_of_mem (hmem doc builds i rec _ hb hi hmsg)⟩
  · intro file path now doc builds i rec og hc hb hi ho hm hr
    rw [hval file path now doc hc]
    have hmsg : ("Build " ++ toString i ++ ": pipeline mode build missing runId")
        ∈ record_errors i rec := by
      unfold record_errors
      rw [List.mem_append, ho]
      right
      unfold origin_errors
      rw [List.mem_append]
      right
      rw [hm]
      simp [hr]
    exact ⟨hmem doc builds i rec _ hb hi hmsg,
      List.ne_nil_of_mem (hmem doc builds i rec _ hb hi hmsg)⟩
  · intro file path now doc builds hc hb hall
    rw [hval file path now doc hc]
    unfold validate_registry_doc
    rw [hb]
    simp only
    rw [List.flatten_eq_nil_iff]
    intro l hl
    rw [List.mem_map] at hl
    obtain ⟨⟨i, rec⟩, hpair, rfl⟩ := hl
    have hrec : rec ∈ builds :=
      List.getElem?_mem (List.mk_mem_enum_iff_getElem?.mp hpair)
    exact recClean_record_errors rec (List.all_eq_true.mp hall rec hrec) i

/-- Witness for C6 at the concrete registry `fileBad`, whose record 0 is a
dream-mode build without a `dreamPromptHash`. -/
theorem validate_build_registry_spec_witness :
    fileBad.content = some (some { updatedAt := some "2024-01-01T00:00:00",
                                   builds := some [recDreamBad, recPipelineBad] })
    ∧ [recDreamBad, recPipelineBad][0]? = some recDreamBad
    ∧ recDreamBad.origin = some { mode := some "dream", runId := some "run-1" }
    ∧ ({ mode := some "dream", runId := some "run-1" } : Origin).mode = some "dream"
    ∧ pyTruthy ({ mode := some "dream", runId := some "run-1" } : Origin).dreamPromptHash = false
    ∧ (("Build " ++ toString 0 ++ ": dream mode build missing dreamPromptHash")
         ∈ validate_build_registry fileBad "builds/build_index.json" "T"
       ∧ validate_build_registry fileBad "builds/build_index.json" "T" ≠ []) :=
  ⟨rfl, rfl, rfl, rfl, rfl,
   validate_build_registry_spec.1 fileBad "builds/build_index.json" "T" _ _ 0
     recDreamBad _ rfl rfl rfl rfl rfl rfl⟩


/-! ## C7: `run_command` never raises -/

/--
C7.  `run_command` is total over every subprocess outcome: a completed
process yields `success` exactly when its exit code is 0 (with stripped
captured output); a timeout becomes a synthetic failed result carrying the
timeout message; any launch exception becomes a synthetic failed result
carrying its text; and the default timeout is 30 seconds.
-/
theorem run_command_total :
    (∀ (command : List String) (rc : Int) (out err : String) (t : Nat),
       (run_command command (.completed rc out err) t).success = (rc == 0)
       ∧ (run_command command (.completed rc out err) t).returncode = rc
       ∧ (run_command command (.completed rc out err) t).stdout = pyStrip out
       ∧ (run_command command (.completed rc out err) t).stderr = pyStrip err)
    ∧ (∀ (command : List String) (t : Nat),
       (run_command command .timedOut t).success = false
       ∧ (run_command command .timedOut t).stderr =
           "Command timed out after " ++ toString t ++ "s"
       ∧ (run_command command .timedOut t).returncode = -1
       ∧ (run_command command .timedOut t).stdout = "")
    ∧ (∀ (command : List String) (m : String) (t : Nat),
       (run_command command (.launchError m) t).success = false
       ∧ (run_command command (.launchError m) t).stderr = m
       ∧ (run_command command (.launchError m) t).returncode = -1)
    ∧ (∀ (command : List String) (o : SubprocOutcome),
       run_command command o = run_command command o 30) :=
  ⟨fun _ _ _ _ _ => ⟨rfl, rfl, rfl, rfl⟩,
   fun _ _ => ⟨rfl, rfl, rfl, rfl⟩,
   fun _ _ _ => ⟨rfl, rfl, rfl⟩,
   fun _ _ => rfl⟩

/-! ## C5: nonexistent build path -/

/--
C5.  When the build path does not exist, `validate_expo_build` returns
immediately: the report is exactly the freshly initialised one with the
single error recorded, so it has exactly one error and (per the conjuncts on
`init_report`) every validation flag false, no commands, and no warnings;
the working directory is untouched.
-/
theorem validate_expo_build_missing_path (env : Env) (build_path cwd0 : String)
    (h : env.buildPathExists = false) :
    validate_expo_build env build_path cwd0 =
      some ({ init_report env build_path cwd0 with
              errors := ["Build path does not exist: " ++ build_path] }, cwd0)
    ∧ (init_report env build_path cwd0).validation = ({} : Validation)
    ∧ (init_report env build_path cwd0).commands = []
    ∧ (init_report env build_path cwd0).warnings = []
    ∧ (init_report env build_path cwd0).errors = [] := by
  refine ⟨?_, rfl, rfl, rfl, rfl⟩
  unfold validate_expo_build
  rw [h]
  simp [init_report, withError]

/-- Witness for C5 at a concrete environment with a missing path. -/
theorem validate_expo_build_missing_path_witness :
    envMissing.buildPathExists = false
    ∧ validate_expo_build envMissing "builds/app" "/work" =
        some ({ init_report envMissing "builds/app" "/work" with
                errors := ["Build path does not exist: " ++ "builds/app"] }, "/work") :=
  ⟨rfl, (validate_expo_build_missing_path envMissing "builds/app" "/work" rfl).1⟩

/-! ## C8: the working directory is restored on every return path -/

/--
C8.  Whenever `validate_expo_build` returns (early return on a missing
path, normal completion, or an exception inside the command phase caught by
the `except` block), the process working directory equals the one in effect
before the call: the `finally` block restores it unconditionally, and if
that restoring `chdir` itself raised, the function would not return at all.
-/
theorem validate_expo_build_restores_cwd (env : Env) (build_path cwd0 : String)
    (rep : Report) (cwd : String)
    (h : validate_expo_build env build_path cwd0 = some (rep, cwd)) :
    cwd = cwd0 := by
  unfold validate_expo_build commands_phase at h
  cases hex : env.buildPathExists <;> rw [hex] at h
  · simp only [Bool.not_false, if_true, Option.some.injEq, Prod.mk.injEq] at h
    exact h.2.symm
  · simp only [Bool.not_true, Bool.false_eq_true, if_false] at h
    cases hc : env.chdirOk cwd0 <;> rw [hc] at h
    · simp at h
    · simp only [if_true, Option.some.injEq, Prod.mk.injEq] at h
      exact h.2.symm

/-- Witness for C8's hypothesis at a concrete returning call. -/
theorem validate_expo_build_restores_cwd_witness :
    validate_expo_build envMissing "builds/app" "/work" =
      some ({ init_report envMissing "builds/app" "/work" with
              errors := ["Build path does not exist: " ++ "builds/app"] }, "/work")
    ∧ ("/work" : String) = "/work" :=
  ⟨rfl, validate_expo_build_restores_cwd envMissing "builds/app" "/work" _ "/work" rfl⟩

/-! ## Field lemmas for the elementary report mutations -/

section ReportFieldLemmas

variable (m key : String) (res : CmdResult) (f : Validation → Validation)
  (g : ExpoInfo → ExpoInfo) (d : DepsInfo → DepsInfo) (r : Report)

@[simp] theorem withError_errors : (withError m r).errors = r.errors ++ [m] := rfl
@[simp] theorem withError_warnings : (withError m r).warnings = r.warnings := rfl
@[simp] theorem withError_commands : (withError m r).commands = r.commands := rfl
@[simp] theorem withError_validation : (withError m r).validation = r.validation := rfl
@[simp] theorem withError_expo : (withError m r).expo = r.expo := rfl
@[simp] theorem withError_dependencies : (withError m r).dependencies = r.dependencies := rfl

@[simp] theorem withWarning_errors : (withWarning m r).errors = r.errors := rfl
@[simp] theorem withWarning_warnings : (withWarning m r).warnings = r.warnings ++ [m] := rfl
@[simp] theorem withWarning_commands : (withWarning m r).commands = r.commands := rfl
@[simp] theorem withWarning_validation : (withWarning m r).validation = r.validation := rfl
@[simp] theorem withWarning_expo : (withWarning m r).expo = r.expo := rfl
@[simp] theorem withWarning_dependencies : (withWarning m r).dependencies = r.dependencies := rfl

@[simp] theorem withCommand_errors : (withCommand key res r).errors = r.errors := rfl
@[simp] theorem withCommand_warnings : (withCommand key res r).warnings = r.warnings := rfl
@[simp] theorem withCommand_commands :
    (withCommand key res r).commands = r.commands ++ [(key, res)] := rfl
@[simp] theorem withCommand_validation : (withCommand key res r).validation = r.validation := rfl
@[simp] theorem withCommand_expo : (withCommand key res r).expo = r.expo := rfl
@[simp] theorem withCommand_dependencies :
    (withCommand key res r).dependencies = r.dependencies := rfl

@[simp] theorem withValidation_errors : (withValidation f r).errors = r.errors := rfl
@[simp] theorem withValidation_warnings : (withValidation f r).warnings = r.warnings := rfl
@[simp] theorem withValidation_commands : (withValidation f r).commands = r.commands := rfl
@[simp] theorem withValidation_validation :
    (withValidation f r).validation = f r.validation := rfl
@[simp] theorem withValidation_expo : (withValidation f r).expo = r.expo := rfl
@[simp] theorem withValidation_dependencies :
    (withValidation f r).dependencies = r.dependencies := rfl

@[simp] theorem withExpo_errors : (withExpo g r).errors = r.errors := rfl
@[simp] theorem withExpo_warnings : (withExpo g r).warnings = r.warnings := rfl
@[simp] theorem withExpo_commands : (withExpo g r).commands = r.commands := rfl
@[simp] theorem withExpo_validation : (withExpo g r).validation = r.validation := rfl
@[simp] theorem withExpo_expo : (withExpo g r).expo = g r.expo := rfl
@[simp] theorem withExpo_dependencies : (withExpo g r).dependencies = r.dependencies := rfl

@[simp] theorem withDeps_errors : (withDeps d r).errors = r.errors := rfl
@[simp] theorem withDeps_warnings : (withDeps d r).warnings = r.warnings := rfl
@[simp] theorem withDeps_commands : (withDeps d r).commands = r.commands := rfl
@[simp] theorem withDeps_validation : (withDeps d r).validation = r.validation := rfl
@[simp] theorem withDeps_expo : (withDeps d r).expo = r.expo := rfl
@[simp] theorem withDeps_dependencies : (withDeps d r).dependencies = d r.dependencies := rfl

end ReportFieldLemmas

/-! ## C4/C10: phase lemmas for `validate_expo_build` -/

/-- The hardcoded-version loop raises on no module whose version is safe. -/
theorem expo_issues_loop_no_raise (depFields : List (String × J)) (ms : List String)
    (h : ms.all (versionOk depFields) = true) :
    (expo_issues_loop depFields ms).2 = false := by
  induction ms with
  | nil => rfl
  | cons m ms ih =>
    rw [List.all_cons, Bool.and_eq_true] at h
    obtain ⟨hm, hms⟩ := h
    unfold expo_issues_loop
    cases hc : expo_issue_check depFields m with
    | error e =>
      exfalso
      unfold expo_issue_check at hc
      unfold versionOk at hm
      cases hv : (lookupJ depFields m).getD (J.str "") with
      | str s =>
        rw [hv] at hc
        revert hc
        simp only [jTruthy]
        split <;> simp
      | null => rw [hv] at hc hm; simp_all
      | bool v => rw [hv] at hc hm; simp_all
      | num v => rw [hv] at hc hm; simp_all
      | arr items => rw [hv] at hc hm; simp_all
      | obj fields => rw [hv] at hc hm; simp_all
    | ok o =>
      cases o with
      | none => simpa using ih hms
      | some msg => simpa using ih hms

/-- On a well-formed `package.json` the package phase only sets
`packageJsonExists`, recording no error and no warning. -/
theorem package_json_phase_wf (env : Env) (r : Report) (p : J)
    (hf : env.packageJsonFile = some (.ok p)) (hw : pkgWellFormed p = true) :
    (package_json_phase env r).errors = r.errors
    ∧ (package_json_phase env r).warnings = r.warnings
    ∧ (package_json_phase env r).commands = r.commands
    ∧ (package_json_phase env r).validation =
        { r.validation with packageJsonExists := true }
    ∧ (package_json_phase env r).expo = r.expo := by
  unfold package_json_phase
  unfold pkgWellFormed at hw
  cases hd : pyGet p "dependencies" (J.obj []) with
  | none => rw [hd] at hw; simp at hw
  | some dep =>
    rw [hd] at hw
    cases dep with
    | obj depFields =>
      have hloop := expo_issues_loop_no_raise depFields
        ((depFields.map (fun q => q.1)).filter (fun d => pyStartswith d "expo-")) hw
      simp [hf, hd, hloop]
    | null => simp at hw
    | bool v => simp at hw
    | str v => simp at hw
    | num v => simp at hw
    | arr items => simp at hw

/-- On an `app.json` whose two identifiers are present non-empty strings,
the app phase records no error, sets the three flags, and warns exactly on
the identifiers that lack the `com.appfactory.` prefix. -/
theorem app_json_phase_ids (env : Env) (r : Report) (a : J) (s t : String)
    (hf : env.appJsonFile = some (.ok a))
    (hdo : appIdLookups a = some (J.str s, J.str t))
    (hs : (s != "") = true) (ht : (t != "") = true) :
    (app_json_phase env r).errors = r.errors
    ∧ (app_json_phase env r).warnings = r.warnings
        ++ (if !pyStartswith s "com.appfactory." then
             ["Bundle identifier " ++ sQuote ++ s ++ sQuote ++ " doesn" ++ sQuote ++
              "t follow com.appfactory.* pattern"] else [])
        ++ (if !pyStartswith t "com.appfactory." then
             ["Android package " ++ sQuote ++ t ++ sQuote ++ " doesn" ++ sQuote ++
              "t follow com.appfactory.* pattern"] else [])
    ∧ (app_json_phase env r).commands = r.commands
    ∧ (app_json_phase env r).validation =
        { r.validation with appJsonExists := true,
                            hasValidBundleIdentifier := true,
                            hasValidAndroidPackage := true }
    ∧ (app_json_phase env r).expo = r.expo
    ∧ (app_json_phase env r).dependencies = r.dependencies := by
  unfold app_json_phase app_json_android
  simp only [hf, hdo, jTruthy, hs, ht, if_true]
  split <;> split <;> simp_all

/-- When a recognized entry point exists, the entry phase only sets the
flag. -/
theorem entry_point_phase_found (env : Env) (r : Report)
    (h : mandatory_files.any env.entryFileExists = true) :
    entry_point_phase env r =
      withValidation (fun v => { v with hasMandatoryFiles := true }) r := by
  unfold entry_point_phase
  rw [h]
  simp


/-- Field effects of the version block. -/
theorem cmd_version_step_fields (env : Env) (bp : String) (r : Report) :
    (cmd_version_step env bp r).errors = r.errors
    ∧ (cmd_version_step env bp r).warnings = r.warnings
    ∧ (cmd_version_step env bp r).validation = r.validation
    ∧ (cmd_version_step env bp r).commands = r.commands ++
        [("expo_version", run_command ["npx", "expo", "--version"]
           (env.runOutcome ["npx", "expo", "--version"] bp) 30)] := by
  unfold cmd_version_step
  simp only []
  split <;> simp

/-- Field effects of the config block: it never touches errors and only
extends warnings. -/
theorem cmd_config_step_fields (env : Env) (bp : String) (r : Report) :
    (cmd_config_step env bp r).errors = r.errors
    ∧ (∀ x ∈ r.warnings, x ∈ (cmd_config_step env bp r).warnings)
    ∧ (cmd_config_step env bp r).validation = r.validation
    ∧ (cmd_config_step env bp r).commands = r.commands ++
        [("expo_config", run_command ["npx", "expo", "config", "--type", "public"]
           (env.runOutcome ["npx", "expo", "config", "--type", "public"] bp) 30)] := by
  unfold cmd_config_step
  simp only []
  repeat' split
  all_goals refine ⟨by simp, ?_, by simp, by simp⟩
  all_goals intro x hx
  all_goals simp [hx]

/-- Field effects of the install-check block. -/
theorem cmd_install_step_fields (env : Env) (bp : String) (r : Report) :
    (cmd_install_step env bp r).errors = r.errors
    ∧ (∀ x ∈ r.warnings, x ∈ (cmd_install_step env bp r).warnings)
    ∧ (cmd_install_step env bp r).validation =
        { r.validation with expoInstallCheck :=
            (run_command ["npx", "expo", "install", "--check"]
              (env.runOutcome ["npx", "expo", "install", "--check"] bp) 30).success }
    ∧ (cmd_install_step env bp r).commands = r.commands ++
        [("expo_install_check", run_command ["npx", "expo", "install", "--check"]
           (env.runOutcome ["npx", "expo", "install", "--check"] bp) 30)] := by
  unfold cmd_install_step
  simp only []
  split
  all_goals refine ⟨by simp, ?_, by simp, by simp⟩
  all_goals intro x hx
  all_goals simp [hx]

/-- Field effects of the doctor block. -/
theorem cmd_doctor_step_fields (env : Env) (bp : String) (r : Report) :
    (cmd_doctor_step env bp r).errors = r.errors
    ∧ (cmd_doctor_step env bp r).warnings = r.warnings
    ∧ (cmd_doctor_step env bp r).validation = r.validation
    ∧ (cmd_doctor_step env bp r).commands = r.commands ++
        [("expo_doctor", run_command ["npx", "expo-doctor"]
           (env.runOutcome ["npx", "expo-doctor"] bp) 30)] := by
  unfold cmd_doctor_step
  simp

/-- When every external command fails, the command phase records the four
failed results, clears `expoInstallCheck`, adds the install warning, and
adds no error. -/
theorem commands_phase_body_all_fail (env : Env) (build_path : String) (r : Report)
    (hfail : ∀ argv cwd, (run_command argv (env.runOutcome argv cwd) 30).success = false) :
    commands_phase_body env build_path r = { r with
      commands := r.commands ++
        [("expo_version", run_command ["npx", "expo", "--version"]
            (env.runOutcome ["npx", "expo", "--version"] build_path) 30),
         ("expo_config", run_command ["npx", "expo", "config", "--type", "public"]
            (env.runOutcome ["npx", "expo", "config", "--type", "public"] build_path) 30),
         ("expo_install_check", run_command ["npx", "expo", "install", "--check"]
            (env.runOutcome ["npx", "expo", "install", "--check"] build_path) 30),
         ("expo_doctor", run_command ["npx", "expo-doctor"]
            (env.runOutcome ["npx", "expo-doctor"] build_path) 30)],
      validation := { r.validation with expoInstallCheck := false },
      warnings := r.warnings ++
        ["Expo install check failed - dependencies may be incompatible"] } := by
  unfold commands_phase_body cmd_version_step cmd_config_step cmd_install_step cmd_doctor_step
  simp only [hfail, Bool.false_eq_true, if_false, Bool.not_false, if_true,
    withCommand, withWarning, withValidation]
  simp [List.append_assoc]

/-- Unfolding of the compliant-app predicate. -/
theorem appWellFormedCompliant_elim (a : J) (h : appWellFormedCompliant a = true) :
    ∃ s t, appIdLookups a = some (J.str s, J.str t)
      ∧ pyStartswith s "com.appfactory." = true
      ∧ pyStartswith t "com.appfactory." = true := by
  unfold appWellFormedCompliant at h
  split at h
  · rename_i s t heq
    rw [Bool.and_eq_true] at h
    exact ⟨s, t, heq, h.1, h.2⟩
  · simp at h

/-- A string with the organizational prefix is non-empty (truthy). -/
theorem startsWith_appfactory_ne (s : String)
    (h : pyStartswith s "com.appfactory." = true) : (s != "") = true := by
  rcases eq_or_ne s "" with rfl | hne
  · exact absurd h (by decide)
  · simp [hne]

/--
C4.  On a build directory with a well-formed `package.json`, a well-formed
`app.json` with compliant bundle identifiers, and a recognized entry point,
if every external command fails then `validate_expo_build` returns a report
with an empty `errors` list: the four failed commands are recorded under
their keys with `success = false`, and the only effect of the failures is
the dependency-compatibility warning.
-/
theorem validate_expo_build_external_failures
    (env : Env) (build_path cwd0 : String) (p a : J)
    (hex : env.buildPathExists = true)
    (hp : env.packageJsonFile = some (.ok p)) (hpw : pkgWellFormed p = true)
    (ha : env.appJsonFile = some (.ok a)) (haw : appWellFormedCompliant a = true)
    (hent : mandatory_files.any env.entryFileExists = true)
    (hch1 : env.chdirOk build_path = true) (hch2 : env.chdirOk cwd0 = true)
    (hfail : ∀ argv cwd, (run_command argv (env.runOutcome argv cwd) 30).success = false) :
    ∃ rep, validate_expo_build env build_path cwd0 = some (rep, cwd0)
      ∧ rep.errors = []
      ∧ rep.commands.map Prod.fst =
          ["expo_version", "expo_config", "expo_install_check", "expo_doctor"]
      ∧ (∀ kv ∈ rep.commands, kv.2.success = false)
      ∧ rep.warnings = ["Expo install check failed - dependencies may be incompatible"] := by
  obtain ⟨s, t, hdo, hsw, htw⟩ := appWellFormedCompliant_elim a haw
  have hs := startsWith_appfactory_ne s hsw
  have ht := startsWith_appfactory_ne t htw
  have h1 := package_json_phase_wf env (init_report env build_path cwd0) p hp hpw
  have h2 := app_json_phase_ids env
    (package_json_phase env (init_report env build_path cwd0)) a s t ha hdo hs ht
  have h3 := entry_point_phase_found env
    (app_json_phase env (package_json_phase env (init_report env build_path cwd0))) hent
  have hcmds : (entry_point_phase env (app_json_phase env
      (package_json_phase env (init_report env build_path cwd0)))).commands = [] := by
    rw [h3, withValidation_commands, h2.2.2.1, h1.2.2.1]
    rfl
  have herrs : (entry_point_phase env (app_json_phase env
      (package_json_phase env (init_report env build_path cwd0)))).errors = [] := by
    rw [h3, withValidation_errors, h2.1, h1.1]
    rfl
  have hwarns : (entry_point_phase env (app_json_phase env
      (package_json_phase env (init_report env build_path cwd0)))).warnings = [] := by
    rw [h3, withValidation_warnings, h2.2.1, h1.2.1]
    simp [hsw, htw]
    rfl
  refine ⟨commands_phase_body env build_path (entry_point_phase env (app_json_phase env
    (package_json_phase env (init_report env build_path cwd0)))), ?_, ?_, ?_, ?_, ?_⟩
  · unfold validate_expo_build commands_phase
    simp only [hex, Bool.not_true, Bool.false_eq_true, if_false, hch1, hch2, if_true]
  · rw [commands_phase_body_all_fail env build_path _ hfail]
    simpa using herrs
  · rw [commands_phase_body_all_fail env build_path _ hfail]
    simp [hcmds]
  · rw [commands_phase_body_all_fail env build_path _ hfail]
    intro kv hkv
    simp only [hcmds, List.nil_append] at hkv
    simp only [List.mem_cons, List.mem_singleton, List.not_mem_nil] at hkv
    rcases hkv with rfl | rfl | rfl | rfl | h
    · exact hfail _ _
    · exact hfail _ _
    · exact hfail _ _
    · exact hfail _ _
    · cases h
  · rw [commands_phase_body_all_fail env build_path _ hfail]
    simp [hwarns]

/-- Witness for C4's hypotheses at the concrete environment `envAllFail`. -/
theorem validate_expo_build_external_failures_witness :
    envAllFail.buildPathExists = true
    ∧ envAllFail.packageJsonFile = some (.ok pkgGoodJ)
    ∧ pkgWellFormed pkgGoodJ = true
    ∧ envAllFail.appJsonFile = some (.ok appGoodJ)
    ∧ appWellFormedCompliant appGoodJ = true
    ∧ mandatory_files.any envAllFail.entryFileExists = true
    ∧ envAllFail.chdirOk "builds/app" = true
    ∧ envAllFail.chdirOk "/work" = true
    ∧ (∀ argv cwd, (run_command argv (envAllFail.runOutcome argv cwd) 30).success = false)
    ∧ ∃ rep, validate_expo_build envAllFail "builds/app" "/work" = some (rep, "/work")
        ∧ rep.errors = []
        ∧ rep.commands.map Prod.fst =
            ["expo_version", "expo_config", "expo_install_check", "expo_doctor"]
        ∧ (∀ kv ∈ rep.commands, kv.2.success = false)
        ∧ rep.warnings = ["Expo install check failed - dependencies may be incompatible"] :=
  ⟨rfl, rfl, by decide, rfl, by decide, by decide, rfl, rfl, fun _ _ => rfl,
   validate_expo_build_external_failures envAllFail "builds/app" "/work" pkgGoodJ appGoodJ
     rfl rfl (by decide) rfl (by decide) (by decide) rfl rfl (fun _ _ => rfl)⟩

/--
C10.  `hasValidBundleIdentifier` records presence (truthiness) of
`expo.ios.bundleIdentifier`, not prefix compliance: with both identifiers
present as non-empty strings the flag (and its android counterpart) is set
even when an identifier does not start with `com.appfactory.`, in which
case only a warning is added — the report still has zero errors.
-/
theorem validate_expo_build_flags_presence
    (env : Env) (build_path cwd0 : String) (p a : J) (s t : String)
    (hex : env.buildPathExists = true)
    (hp : env.packageJsonFile = some (.ok p)) (hpw : pkgWellFormed p = true)
    (ha : env.appJsonFile = some (.ok a))
    (hdo : appIdLookups a = some (J.str s, J.str t))
    (hs : (s != "") = true) (ht : (t != "") = true)
    (hent : mandatory_files.any env.entryFileExists = true)
    (hch1 : env.chdirOk build_path = true) (hch2 : env.chdirOk cwd0 = true) :
    ∃ rep, validate_expo_build env build_path cwd0 = some (rep, cwd0)
      ∧ rep.validation.hasValidBundleIdentifier = true
      ∧ rep.validation.hasValidAndroidPackage = true
      ∧ rep.errors = []
      ∧ (pyStartswith s "com.appfactory." = false →
          ("Bundle identifier " ++ sQuote ++ s ++ sQuote ++ " doesn" ++ sQuote ++
           "t follow com.appfactory.* pattern") ∈ rep.warnings)
      ∧ (pyStartswith t "com.appfactory." = false →
          ("Android package " ++ sQuote ++ t ++ sQuote ++ " doesn" ++ sQuote ++
           "t follow com.appfactory.* pattern") ∈ rep.warnings) := by
  have h1 := package_json_phase_wf env (init_report env build_path cwd0) p hp hpw
  have h2 := app_json_phase_ids env
    (package_json_phase env (init_report env build_path cwd0)) a s t ha hdo hs ht
  have h3 := entry_point_phase_found env
    (app_json_phase env (package_json_phase env (init_report env build_path cwd0))) hent
  have hvr : (entry_point_phase env (app_json_phase env
      (package_json_phase env (init_report env build_path cwd0)))).validation =
      { (app_json_phase env (package_json_phase env
          (init_report env build_path cwd0))).validation with hasMandatoryFiles := true } := by
    rw [h3, withValidation_validation]
  have herr3 : (entry_point_phase env (app_json_phase env
      (package_json_phase env (init_report env build_path cwd0)))).errors = [] := by
    rw [h3, withValidation_errors, h2.1, h1.1]
    rfl
  have hwmono : ∀ x ∈ (entry_point_phase env (app_json_phase env
      (package_json_phase env (init_report env build_path cwd0)))).warnings,
      x ∈ (commands_phase_body env build_path (entry_point_phase env (app_json_phase env
        (package_json_phase env (init_report env build_path cwd0))))).warnings := by
    intro x hx
    unfold commands_phase_body
    have m1 : x ∈ (cmd_version_step env build_path (entry_point_phase env (app_json_phase env
        (package_json_phase env (init_report env build_path cwd0))))).warnings := by
      rw [(cmd_version_step_fields env build_path _).2.1]
      exact hx
    have m2 := (cmd_config_step_fields env build_path _).2.1 x m1
    have m3 := (cmd_install_step_fields env build_path _).2.1 x m2
    rw [(cmd_doctor_step_fields env build_path _).2.1]
    exact m3
  have hval4 : (commands_phase_body env build_path (entry_point_phase env (app_json_phase env
      (package_json_phase env (init_report env build_path cwd0))))).validation =
      { (entry_point_phase env (app_json_phase env
          (package_json_phase env (init_report env build_path cwd0)))).validation with
        expoInstallCheck :=
          (run_command ["npx", "expo", "install", "--check"]
            (env.runOutcome ["npx", "expo", "install", "--check"] build_path) 30).success } := by
    unfold commands_phase_body
    rw [(cmd_doctor_step_fields env build_path _).2.2.1,
        (cmd_install_step_fields env build_path _).2.2.1,
        (cmd_config_step_fields env build_path _).2.2.1,
        (cmd_version_step_fields env build_path _).2.2.1]
  have herr4 : (commands_phase_body env build_path (entry_point_phase env (app_json_phase env
      (package_json_phase env (init_report env build_path cwd0))))).errors = [] := by
    unfold commands_phase_body
    rw [(cmd_doctor_step_fields env build_path _).1,
        (cmd_install_step_fields env build_path _).1,
        (cmd_config_step_fields env build_path _).1,
        (cmd_version_step_fields env build_path _).1,
        herr3]
  refine ⟨commands_phase_body env build_path (entry_point_phase env (app_json_phase env
    (package_json_phase env (init_report env build_path cwd0)))), ?_, ?_, ?_, herr4, ?_, ?_⟩
  · unfold validate_expo_build commands_phase
    simp only [hex, Bool.not_true, Bool.false_eq_true, if_false, hch1, hch2, if_true]
  · rw [hval4]
    simp only [hvr]
    rw [h2.2.2.2.1]
  · rw [hval4]
    simp only [hvr]
    rw [h2.2.2.2.1]
  · intro hns
    refine hwmono _ ?_
    rw [h3, withValidation_warnings, h2.2.1]
    simp [hns]
  · intro hnt
    refine hwmono _ ?_
    rw [h3, withValidation_warnings, h2.2.1]
    simp [hnt]

/-- Witness for C10's hypotheses at the concrete environment `envOther`,
whose identifiers are present but non-compliant. -/
theorem validate_expo_build_flags_presence_witness :
    appIdLookups appOtherJ =
      some (J.str "org.example.demo", J.str "org.example.demo")
    ∧ pkgWellFormed pkgGoodJ = true
    ∧ (("org.example.demo" != "") = true)
    ∧ pyStartswith "org.example.demo" "com.appfactory." = false
    ∧ (∃ rep, validate_expo_build envOther "builds/app" "/work" = some (rep, "/work")
        ∧ rep.validation.hasValidBundleIdentifier = true
        ∧ rep.validation.hasValidAndroidPackage = true
        ∧ rep.errors = []
        ∧ (pyStartswith "org.example.demo" "com.appfactory." = false →
            ("Bundle identifier " ++ sQuote ++ "org.example.demo" ++ sQuote ++ " doesn" ++
             sQuote ++ "t follow com.appfactory.* pattern") ∈ rep.warnings)
        ∧ (pyStartswith "org.example.demo" "com.appfactory." = false →
            ("Android package " ++ sQuote ++ "org.example.demo" ++ sQuote ++ " doesn" ++
             sQuote ++ "t follow com.appfactory.* pattern") ∈ rep.warnings)) :=
  ⟨rfl, by decide, by decide, by decide,
   validate_expo_build_flags_presence envOther "builds/app" "/work" pkgGoodJ appOtherJ
     "org.example.demo" "org.example.demo" rfl rfl (by decide) rfl rfl
     (by decide) (by decide) (by decide) rfl rfl⟩
